import Mathlib

/-! Verification of the operator-pipelines authorization and publication
workflows against their natural-language specification.

The development shallowly embeds:
* the permission-check workflow (`check_permissions`): the module itself is
  not in the source tree, so its definitions are modelled from the spec and
  pinned by the behaviour fixed in
  `tests/entrypoints/test_check_permissions.py`;
* `operatorcert/entrypoints/publish.py` (vendor/repository publication);
* `operatorcert/entrypoints/create_container_image.py` (container image
  creation and the "latest" tag maintenance).

Remote reads (HTTP GET responses) are passed to the embedded functions as
explicit arguments; the returned traces record the mutating remote calls
(PATCH/POST/PUT) and the hosting-platform commands, in issue order.
-/

namespace OperatorPipelines

/-- Models Python's `urllib.parse.urljoin` for the call sites in this code
base: every base URL ends in a slash (or is used as a plain host prefix) and
every second argument is a relative path, so the join is concatenation. -/
def urljoin (base url : String) : String := base ++ url

/-! Part 1: the permission-check workflow (modelled from the spec, pinned by tests). -/

/-- Modelled from the spec: the per-package configuration record (the
package's `ci.yaml`), carrying the certification-project identifier and the
reviewer list.  Missing from the source tree together with the rest of
`operatorcert/entrypoints/check_permissions.py`; only its tests are
available. -/
structure OperatorConfig where
  cert_project_id : Option String
  reviewers : List String
deriving Repr, DecidableEq

/-- Modelled from the spec: the `ReviewContext` for one package: the
package, the submitter identity, the package's configuration as read from
the base and the head repository snapshots, the repository-wide maintainer
list (head snapshot), the remote ownership record (the authorized-identity
list fetched from the catalog, `none` when no record exists), and the
pull-request reference.  Mirrors the constructor
`OperatorReview(operator, pr_owner, base_repo, head_repo, pr_url,
pyxis_url)` exercised by the tests. -/
structure OperatorReview where
  operatorName : String
  submitter : String
  baseConfig : OperatorConfig
  headConfig : OperatorConfig
  maintainers : List String
  ownershipRecord : Option (List String)
  prUrl : String
deriving Repr, DecidableEq

/-- Modelled from the spec: the two fatal-style signals raised by the
decision engine, distinguished by the tests (`MaintainersReviewNeeded` for
the community empty-reviewer condition, `NoPermissionError` for partner
authorization failures). -/
inductive ReviewError where
  | MaintainersReviewNeeded (reason : String)
  | NoPermissionError (reason : String)
deriving Repr, DecidableEq

/-- The spec's three-variant per-package `Decision`. -/
inductive Decision where
  | Approved
  | ReviewRequested
  | Rejected (reason : String)
deriving Repr, DecidableEq

/-- A hosting-platform command, as the argument vector handed to
`run_command` in the tests. -/
abbrev Command := List String

/-- Modelled from the spec: the certification-project identifier is read
from the base-snapshot per-package configuration (pre-change state). -/
def OperatorReview.cert_project_id (r : OperatorReview) : Option String :=
  r.baseConfig.cert_project_id

/-- Modelled from the spec: partner iff the base-snapshot configuration
carries a non-empty certification-project identifier (Python truthiness of
`cert_project_id`). -/
def OperatorReview.is_partner (r : OperatorReview) : Bool :=
  match r.cert_project_id with
  | none => false
  | some s => s ≠ ""

/-- Modelled from the spec: the track discriminator. -/
def OperatorReview.track (r : OperatorReview) : String :=
  if r.is_partner then "partner" else "community"

/-- Modelled from the spec: the reviewer list is read from the package's
own per-package configuration in the head snapshot. -/
def OperatorReview.reviewers (r : OperatorReview) : List String :=
  r.headConfig.reviewers

/-- Modelled from the spec and pinned by
`test_OperatorReview_request_review_from_maintainers`: the
reviewer-assignment dispatch addressed to the repository maintainers,
comma-joined in a single call. -/
def OperatorReview.request_review_from_maintainers (r : OperatorReview) : Command :=
  ["gh", "pr", "edit", r.prUrl, "--add-reviewer",
    String.intercalate "," r.maintainers]

/-- The body of the owners review-request comment, as fixed by
`test_OperatorReview_request_review_from_owners`: the reviewer identities
appear as "@"-mentions joined by ", ". -/
def ownersCommentBody (reviewers : List String) : String :=
  "Author of the PR is not listed as one of the reviewers in ci.yaml.\n" ++
  "Please review the PR and approve it with \\`/lgtm\\` comment.\n" ++
  String.intercalate ", " (reviewers.map (fun r => "@" ++ r)) ++
  " \n\nConsider adding author of the PR to the ci.yaml " ++
  "file if you want automated approval for a followup submissions."

/-- Modelled from the spec and pinned by
`test_OperatorReview_request_review_from_owners`: the review-request
dispatch addressed to the package owners is a single comment post. -/
def OperatorReview.request_review_from_owners (r : OperatorReview) : Command :=
  ["gh", "pr", "comment", r.prUrl, "--body", ownersCommentBody r.reviewers]

/-- Modelled from the spec and pinned by
`test_OperatorReview_check_permission_for_community`: empty reviewer list
raises `MaintainersReviewNeeded`; a submitter listed among the reviewers is
approved with no dispatch; otherwise the owners review-request comment is
posted and the result is "not approved" (review requested).  The result
pairs the boolean outcome with the dispatched commands. -/
def OperatorReview.check_permission_for_community (r : OperatorReview) :
    Except ReviewError (Bool × List Command) :=
  if r.reviewers.isEmpty then
    .error (.MaintainersReviewNeeded
      ("Operator " ++ r.operatorName ++ " does not have any reviewers in ci.yaml"))
  else if r.submitter ∈ r.reviewers then
    .ok (true, [])
  else
    .ok (false, [r.request_review_from_owners])

/-- Modelled from the spec and pinned by
`test_OperatorReview_check_permission_for_partner`: no remote ownership
record raises `NoPermissionError`; a record whose authorized-identity list
misses the submitter raises `NoPermissionError`; otherwise approved, with
no dispatch. -/
def OperatorReview.check_permission_for_partner (r : OperatorReview) :
    Except ReviewError (Bool × List Command) :=
  match r.ownershipRecord with
  | none =>
      .error (.NoPermissionError
        ("Project not found for operator " ++ r.operatorName))
  | some usernames =>
      if r.submitter ∈ usernames then
        .ok (true, [])
      else
        .error (.NoPermissionError
          ("User " ++ r.submitter ++ " does not have permission to submit a bundle"))

/-- Modelled from the spec and pinned by
`test_OperatorReview_check_permissions`: dispatch on the track. -/
def OperatorReview.check_permissions (r : OperatorReview) :
    Except ReviewError (Bool × List Command) :=
  if r.is_partner then r.check_permission_for_partner
  else r.check_permission_for_community

/-- The spec's `Decision` view of one package's outcome. -/
def ReviewError.message : ReviewError → String
  | .MaintainersReviewNeeded m => m
  | .NoPermissionError m => m

/-- The per-package `Decision` in the spec's three-variant vocabulary. -/
def OperatorReview.decision (r : OperatorReview) : Decision :=
  match r.check_permissions with
  | .ok (true, _) => .Approved
  | .ok (false, _) => .ReviewRequested
  | .error e => .Rejected e.message

/-- Modelled from the spec: the change-set aggregator, folding the affected
packages in evaluation order.  Pinned by `test_check_permissions`: a
`MaintainersReviewNeeded` signal from one package is caught — the
maintainers review-request is dispatched and the package counts as not
approved — while evaluation continues; any other error propagates.  The
verdict is the conjunction of the per-package boolean outcomes
(`all(...)`), and the empty set yields a true verdict. -/
def check_permissions_run : List OperatorReview →
    Except ReviewError (Bool × List Command)
  | [] => .ok (true, [])
  | r :: rest =>
      match r.check_permissions with
      | .ok (b, calls) =>
          match check_permissions_run rest with
          | .ok (v, cs) => .ok (b && v, calls ++ cs)
          | .error e => .error e
      | .error (.MaintainersReviewNeeded _) =>
          match check_permissions_run rest with
          | .ok (_, cs) => .ok (false, r.request_review_from_maintainers :: cs)
          | .error e => .error e
      | .error e => .error e

/-! Part 2: embedding of operatorcert/entrypoints/publish.py. -/

/-- A payload of shape `{"published": b}` as sent by the publish patch
calls (`publish.py` always sends `{"published": True}`). -/
structure PublishPayload where
  published : Bool
deriving Repr, DecidableEq

/-- The display_data block assembled in `create_repository`. -/
structure DisplayData where
  name : String
  long_description : String
  short_description : String
deriving Repr, DecidableEq

/-- The repository-creation payload assembled in `create_repository`
(`publish.py` lines 162-177), field for field. -/
structure RepoCreatePayload where
  release_categories : List (Option String)
  display_data : DisplayData
  non_production_only : Bool
  privileged_images_allowed : Bool
  protected_for_pull : Bool
  protected_for_search : Bool
  registry : String
  repository : String
  build_categories : List String
  isv_pid : Option String
  application_categories : List String
  includes_multiple_content_streams : Bool
  published : Bool
  vendor_label : String
deriving Repr, DecidableEq

/-- A mutating remote call issued by the publish workflow.  Remote reads
(`pyxis.get_*`) are supplied to the embedded functions as arguments and are
not mutating, so they are not recorded. -/
inductive PublishCall where
  | patch (url : String) (payload : PublishPayload)
  | post (url : String) (payload : RepoCreatePayload)
deriving Repr, DecidableEq

/-- A vendor record fetched from the catalog: `_id`, the `published` flag
(`vendor.get("published", False)`: absent means unpublished), and the
`label` consumed by `create_repository`. -/
structure VendorRec where
  id : String
  published : Option Bool
  label : String
deriving Repr, DecidableEq

/-- A repository record fetched from the catalog: `_id` and the
`published` flag (`repository.get("published", False)`). -/
structure RepoRec where
  id : String
  published : Option Bool
deriving Repr, DecidableEq

/-- A certification project as consumed by `publish_repository` and
`create_repository`; the fields of the nested `container` object are
flattened with a `container_` prefix (`project.get("container", {})`). -/
structure Project where
  name : Option String
  org_id : Option String
  container_isv_pid : Option String
  container_distribution_method : Option String
  container_repository_name : Option String
  container_repository_description : Option String
  container_release_category : Option String
  container_privileged : Option Bool
  container_application_categories : Option (List String)
deriving Repr, DecidableEq

/-- The CLI arguments of `publish.py` used by the embedded functions. -/
structure PublishArgs where
  pyxis_url : String
  org_id : String
  cert_project_id : String
  connect_registry : String
deriving Repr, DecidableEq

/-- `publish_vendor` (`publish.py` lines 57-84).  The vendor fetched by
`pyxis.get_vendor_by_org_id` and the record returned by the patch call are
passed in as `vendor` and `patchResp`.  Returns the vendor object produced
by the function together with the mutating calls issued. -/
def publish_vendor (args : PublishArgs) (vendor : VendorRec)
    (patchResp : VendorRec) : VendorRec × List PublishCall :=
  if vendor.published.getD false then
    (vendor, [])
  else
    (patchResp,
      [PublishCall.patch
        (urljoin args.pyxis_url ("v1/vendors/id/" ++ vendor.id))
        { published := true }])

/-- The derived short description of `create_repository`:
`html2text` followed by `textwrap.shorten(·, 97, placeholder="...")`.  The
two text transformations live outside this code base and no claim depends
on their output, so the composite is taken as an argument `shortDescOf`. -/
def shortDescription (shortDescOf : String → String)
    (long_description : String) : String :=
  shortDescOf long_description

/-- `create_repository` (`publish.py` lines 123-186).  The vendor fetched
by `pyxis.get_vendor_by_org_id` and the record returned by the create call
are passed in as `vendor` and `postResp`; `shortDescOf` stands for the
html2text-and-shorten derivation of the short description.  Returns the
optional repository object produced together with the mutating calls
issued; the unsupported-distribution branch returns `none` before any
remote interaction. -/
def create_repository (args : PublishArgs) (project : Project)
    (vendor : VendorRec) (shortDescOf : String → String)
    (postResp : RepoRec) : Option RepoRec × List PublishCall :=
  let distribution_type := project.container_distribution_method
  if distribution_type = some "rhcc" ∨ distribution_type = some "marketplace_only" then
    let vendor_label := vendor.label
    let repo_name := project.container_repository_name
    let repository_name := vendor_label ++ "/" ++ (repo_name.getD "")
    let long_description :=
      match project.container_repository_description with
      | some s => if s = "" then " " else s
      | none => " "
    let short_description := shortDescription shortDescOf long_description
    let display_data : DisplayData :=
      { name := project.name.getD ""
        long_description := long_description
        short_description := short_description }
    let repository : RepoCreatePayload :=
      { release_categories := [project.container_release_category]
        display_data := display_data
        non_production_only := false
        privileged_images_allowed := project.container_privileged.getD false
        protected_for_pull := false
        protected_for_search := false
        registry := args.connect_registry
        repository := repository_name
        build_categories := ["Operator bundle"]
        isv_pid := project.container_isv_pid
        application_categories := project.container_application_categories.getD []
        includes_multiple_content_streams := false
        published := true
        vendor_label := vendor_label }
    (some postResp,
      [PublishCall.post (urljoin args.pyxis_url "v1/repositories") repository])
  else
    (none, [])

/-- `publish_repository` (`publish.py` lines 87-120).  The project fetched
by `pyxis.get_project`, the optional existing repository fetched by
`pyxis.get_repository_by_isv_pid`, and the records returned by the remote
patch/create calls are passed in as arguments. -/
def publish_repository (args : PublishArgs) (project : Project)
    (repository : Option RepoRec) (patchResp : RepoRec)
    (vendor : VendorRec) (shortDescOf : String → String)
    (postResp : RepoRec) : Option RepoRec × List PublishCall :=
  match repository with
  | some repo =>
      if repo.published.getD false then
        (some repo, [])
      else
        (some patchResp,
          [PublishCall.patch
            (urljoin args.pyxis_url ("v1/repositories/id/" ++ repo.id))
            { published := true }])
  | none => create_repository args project vendor shortDescOf postResp

/-! Part 3: embedding of operatorcert/entrypoints/create_container_image.py. -/

/-- A tag entry `{name, added_date}` of an image repository record. -/
structure TagEntry where
  added_date : String
  name : String
deriving Repr, DecidableEq

/-- One entry of an image's `repositories` list. -/
structure RepoImageEntry where
  published : Bool
  registry : String
  repository : String
  push_date : String
  tags : List TagEntry
deriving Repr, DecidableEq

/-- A container image record held by the remote catalog, restricted to the
fields the code reads: `_id`, the `isv_pid` and `docker_image_digest` used
by the query filters, the `deleted` flag, the `creation_date` used for
sorting (as a comparable timestamp), and the `repositories` list mutated
by the "latest" tag removal. -/
structure PImage where
  id : String
  isv_pid : String
  docker_image_digest : String
  deleted : Bool
  creation_date : Nat
  repositories : List RepoImageEntry
deriving Repr, DecidableEq

/-- `parsed_data` as prepared by `prepare_parsed_data`. -/
structure ParsedData where
  docker_version : String
  layers : List String
  architecture : String
  env_variables : List String
deriving Repr, DecidableEq

/-- Skopeo inspect output, restricted to the keys read by
`prepare_parsed_data` (each may be absent). -/
structure SkopeoResult where
  DockerVersion : Option String
  Layers : Option (List String)
  Architecture : Option String
  Env : Option (List String)
deriving Repr, DecidableEq

/-- One element of the podman inspect output; only `Size` is read. -/
structure PodmanRec where
  Size : Int
deriving Repr, DecidableEq

/-- The ContainerImage payload posted by `create_container_image`
(`create_container_image.py` lines 152-183), field for field. -/
structure ContainerImagePayload where
  isv_pid : String
  repositories : List RepoImageEntry
  certified : Bool
  docker_image_digest : String
  image_id : String
  architecture : String
  parsed_data : ParsedData
  sum_layer_size_bytes : Int
deriving Repr, DecidableEq

/-- A mutating remote call issued by the image-creation workflow. -/
inductive ImageCall where
  | put (url : String) (image : PImage)
  | post (url : String) (payload : ContainerImagePayload)
deriving Repr, DecidableEq

/-- The CLI arguments of `create_container_image.py`.  `certified` and
`is_latest` arrive as strings from the command line. -/
structure ImageArgs where
  pyxis_url : String
  isv_pid : String
  connect_registry : String
  repository : String
  certified : String
  bundle_version : String
  docker_image_digest : String
  is_latest : String
deriving Repr, DecidableEq

/-- Modelled from the spec: the remote catalog's filtered image query used
by `check_if_image_already_exists` — images matching the given `isv_pid`
and `docker_image_digest` and not deleted (`pyxis.get` with the filter of
`create_container_image.py` lines 85-91, page size 1); the function only
tests emptiness of the result. -/
def check_if_image_already_exists (args : ImageArgs) (db : List PImage) : Bool :=
  !(db.filter (fun i =>
      i.isv_pid == args.isv_pid &&
      i.docker_image_digest == args.docker_image_digest &&
      !i.deleted)).isEmpty

/-- `prepare_parsed_data` (`create_container_image.py` lines 112-129). -/
def prepare_parsed_data (skopeo_result : SkopeoResult) : ParsedData :=
  { docker_version := skopeo_result.DockerVersion.getD ""
    layers := skopeo_result.Layers.getD []
    architecture := skopeo_result.Architecture.getD ""
    env_variables := skopeo_result.Env.getD [] }

/-- `create_container_image` (`create_container_image.py` lines 132-184).
The wall-clock timestamp `datetime.now()` is passed in as `date_now`.
Returns the post call issued, as the pair of upload URL and payload;
`none` embeds the index error raised by `podman_result[0]` on an empty
podman inspect result. -/
def create_container_image (args : ImageArgs) (date_now : String)
    (skopeo_result : SkopeoResult) (podman_result : List PodmanRec) :
    Option (String × ContainerImagePayload) :=
  match podman_result with
  | [] => none
  | p0 :: _ =>
      let parsed_data := prepare_parsed_data skopeo_result
      let upload_url := urljoin args.pyxis_url "v1/images"
      let base_tags : List TagEntry :=
        [{ added_date := date_now, name := args.bundle_version }]
      let tags :=
        if args.is_latest = "true" then
          base_tags ++ [{ added_date := date_now, name := "latest" }]
        else
          base_tags
      some (upload_url,
        { isv_pid := args.isv_pid
          repositories :=
            [{ published := true
               registry := args.connect_registry
               repository := args.repository
               push_date := date_now
               tags := tags }]
          certified := true
          docker_image_digest := args.docker_image_digest
          image_id := args.docker_image_digest
          architecture := parsed_data.architecture
          parsed_data := parsed_data
          sum_layer_size_bytes := p0.Size })

/-- `clean_latest_tag` (`create_container_image.py` lines 187-210): drop
every tag named "latest" from every repository entry, reporting whether
any was present. -/
def clean_latest_tag : List RepoImageEntry → List RepoImageEntry × Bool
  | [] => ([], false)
  | repo :: rest =>
      let new_tags := repo.tags.filter (fun t => t.name ≠ "latest")
      let here := repo.tags.any (fun t => t.name == "latest")
      let cleaned := clean_latest_tag rest
      ({ repo with tags := new_tags } :: cleaned.1, here || cleaned.2)

/-- Modelled from the spec: the remote catalog's image query used by
`remove_latest_from_previous_image` — images matching the given `isv_pid`
and not deleted, sorted by `creation_date` descending, page size 1
(`create_container_image.py` lines 222-229).  The stable descending sort
truncated to one element is the first maximum of `creation_date` among the
matching images. -/
def mostRecentPriorImage (db : List PImage) (isv_pid : String) : Option PImage :=
  (db.filter (fun i => i.isv_pid == isv_pid && !i.deleted)).foldl
    (fun acc i =>
      match acc with
      | none => some i
      | some a => if a.creation_date < i.creation_date then some i else acc)
    none

/-- `remove_latest_from_previous_image` (`create_container_image.py` lines
213-250).  Returns the mutating calls issued: one update (PUT) of the
previous image with its "latest" tags stripped when that image carried
one, and nothing otherwise (benign absence). -/
def remove_latest_from_previous_image (pyxis_url isv_pid : String)
    (db : List PImage) : List ImageCall :=
  match mostRecentPriorImage db isv_pid with
  | none => []
  | some prev_image =>
      let cleaned := clean_latest_tag prev_image.repositories
      if cleaned.2 then
        [ImageCall.put
          (urljoin pyxis_url ("v1/images/id/" ++ prev_image.id))
          { prev_image with repositories := cleaned.1 }]
      else []

/-- `main` of `create_container_image.py` (lines 253-274), from the point
where the inspection files are loaded: skip everything when the image
already exists; otherwise strip the previous "latest" holder first when
`--is-latest` is "true", then create the new image.  Returns the mutating
calls in issue order; `none` embeds the abort on an empty podman result. -/
def create_image_main (args : ImageArgs) (date_now : String)
    (skopeo_result : SkopeoResult) (podman_result : List PodmanRec)
    (db : List PImage) : Option (List ImageCall) :=
  if check_if_image_already_exists args db then
    some []
  else
    let removal :=
      if args.is_latest = "true" then
        remove_latest_from_previous_image args.pyxis_url args.isv_pid db
      else []
    match create_container_image args date_now skopeo_result podman_result with
    | none => none
    | some c => some (removal ++ [ImageCall.post c.1 c.2])

/-! Part 4: concrete evaluation inputs used by counterexamples and
witnesses. -/

/-- A community package with an empty reviewer list. -/
def cxEmptyReviewers : OperatorReview :=
  { operatorName := "empty-op"
    submitter := "owner"
    baseConfig := { cert_project_id := none, reviewers := [] }
    headConfig := { cert_project_id := none, reviewers := [] }
    maintainers := ["maintainer1", "maintainer2"]
    ownershipRecord := none
    prUrl := "pr_url" }

/-- A community package whose reviewer list contains the submitter. -/
def cxApprovedCommunity : OperatorReview :=
  { operatorName := "approved-op"
    submitter := "owner"
    baseConfig := { cert_project_id := none, reviewers := [] }
    headConfig := { cert_project_id := none, reviewers := ["owner"] }
    maintainers := ["maintainer1"]
    ownershipRecord := none
    prUrl := "pr_url" }

/-- A community package whose non-empty reviewer list misses the
submitter. -/
def cxCommunityNonMember : OperatorReview :=
  { operatorName := "community-op"
    submitter := "owner"
    baseConfig := { cert_project_id := none, reviewers := [] }
    headConfig := { cert_project_id := none, reviewers := ["user1", "user2"] }
    maintainers := ["maintainer1"]
    ownershipRecord := none
    prUrl := "pr_url" }

/-- A partner package with no remote ownership record. -/
def cxPartnerNoRecord : OperatorReview :=
  { operatorName := "partner-op"
    submitter := "owner"
    baseConfig := { cert_project_id := some "cert123", reviewers := [] }
    headConfig := { cert_project_id := some "cert123", reviewers := [] }
    maintainers := []
    ownershipRecord := none
    prUrl := "pr_url" }

/-- A partner package whose ownership record lists the submitter. -/
def cxPartnerApproved : OperatorReview :=
  { operatorName := "partner-op"
    submitter := "owner"
    baseConfig := { cert_project_id := some "cert123", reviewers := [] }
    headConfig := { cert_project_id := some "cert123", reviewers := [] }
    maintainers := []
    ownershipRecord := some ["owner"]
    prUrl := "pr_url" }

/-! Part 5: theorems settling the claims. -/

/-- C3: the track discriminator is computed solely from the base-snapshot
configuration's certification-project identifier — a non-empty value yields
"partner", otherwise "community" — and replacing the head-snapshot value of
that field never changes the computed track. -/
theorem track_reads_base_snapshot_only (r : OperatorReview) (x : Option String) :
    (r.track = "partner" ↔ r.baseConfig.cert_project_id.getD "" ≠ "") ∧
    (r.track = "community" ↔ r.baseConfig.cert_project_id.getD "" = "") ∧
    OperatorReview.track
      { r with headConfig := { r.headConfig with cert_project_id := x } } =
      r.track := by
  have hne : ("partner" : String) ≠ "community" := by decide
  unfold OperatorReview.track OperatorReview.is_partner OperatorReview.cert_project_id
  cases hc : r.baseConfig.cert_project_id with
  | none => simp
  | some s =>
      by_cases hs : s = ""
      · subst hs; simp
      · simp [hs]

/-- C3 witness: a community package stays on the community track even when
the head snapshot acquires a certification-project identifier. -/
theorem track_reads_base_snapshot_only_witness :
    OperatorReview.track
      { cxCommunityNonMember with
        headConfig :=
          { cxCommunityNonMember.headConfig with cert_project_id := some "forged" } } =
      cxCommunityNonMember.track ∧
    cxCommunityNonMember.track = "community" := by
  have h := track_reads_base_snapshot_only cxCommunityNonMember (some "forged")
  exact ⟨h.2.2, h.2.1.mpr (by decide)⟩

/-- C4: on the partner track, a missing ownership record is a fatal
rejection, a record whose authorized-identity list misses the submitter is
a fatal rejection, and a record listing the submitter yields Approved with
no dispatch. -/
theorem partner_track_decision (r : OperatorReview) (hp : r.is_partner = true) :
    (r.ownershipRecord = none →
      ∃ m, r.check_permissions = .error (.NoPermissionError m) ∧
        r.decision = .Rejected m) ∧
    (∀ l, r.ownershipRecord = some l → r.submitter ∉ l →
      ∃ m, r.check_permissions = .error (.NoPermissionError m) ∧
        r.decision = .Rejected m) ∧
    (∀ l, r.ownershipRecord = some l → r.submitter ∈ l →
      r.check_permissions = .ok (true, []) ∧ r.decision = .Approved) := by
  refine ⟨?_, ?_, ?_⟩
  · intro hnone
    refine ⟨"Project not found for operator " ++ r.operatorName, ?_, ?_⟩ <;>
      simp [OperatorReview.check_permissions, OperatorReview.decision,
        OperatorReview.check_permission_for_partner, hp, hnone,
        ReviewError.message]
  · intro l hl hmem
    refine ⟨"User " ++ r.submitter ++ " does not have permission to submit a bundle",
      ?_, ?_⟩ <;>
      simp [OperatorReview.check_permissions, OperatorReview.decision,
        OperatorReview.check_permission_for_partner, hp, hl, hmem,
        ReviewError.message]
  · intro l hl hmem
    constructor <;>
      simp [OperatorReview.check_permissions, OperatorReview.decision,
        OperatorReview.check_permission_for_partner, hp, hl, hmem]

/-- C4 witness: the partner package whose ownership record lists the
submitter is approved with no dispatch. -/
theorem partner_track_decision_witness :
    cxPartnerApproved.check_permissions = .ok (true, []) ∧
    cxPartnerApproved.decision = .Approved := by
  exact (partner_track_decision cxPartnerApproved (by decide)).2.2
    ["owner"] rfl (by decide)

/-- Recognizes the hosting platform's reviewer-assignment action (a
`gh pr edit ... --add-reviewer ...` invocation), as opposed to a comment
post. -/
def isReviewerAssignmentCommand : Command → Bool
  | "gh" :: "pr" :: "edit" :: _ => true
  | _ => false

/-- C5 counterexample: a community-track package with an empty reviewer
list does not abort the run — the aggregator catches the signal, dispatches
the maintainers review request, and completes normally with a false
verdict, so "aborts the run ... and no verdict" fails. -/
theorem empty_reviewers_abort_cx :
    cxEmptyReviewers.is_partner = false ∧
    cxEmptyReviewers.reviewers = [] ∧
    check_permissions_run [cxEmptyReviewers] =
      .ok (false, [cxEmptyReviewers.request_review_from_maintainers]) := by
  refine ⟨rfl, rfl, ?_⟩
  rfl

/-- C5 amended: a community-track package with an empty reviewer list
yields the MaintainersReviewNeeded signal — distinct from ReviewRequested
and from Approved — which the aggregator catches: it dispatches the
maintainers review request, counts the package as not approved, and the
run completes normally with a false verdict. -/
theorem empty_reviewers_maintainers_review (r : OperatorReview)
    (hc : r.is_partner = false) (he : r.reviewers = []) :
    r.check_permissions =
      .error (.MaintainersReviewNeeded
        ("Operator " ++ r.operatorName ++ " does not have any reviewers in ci.yaml")) ∧
    r.decision ≠ .ReviewRequested ∧
    r.decision ≠ .Approved ∧
    check_permissions_run [r] =
      .ok (false, [r.request_review_from_maintainers]) := by
  have hck : r.check_permissions =
      .error (.MaintainersReviewNeeded
        ("Operator " ++ r.operatorName ++ " does not have any reviewers in ci.yaml")) := by
    simp [OperatorReview.check_permissions, hc,
      OperatorReview.check_permission_for_community, he]
  refine ⟨hck, ?_, ?_, ?_⟩
  · simp [OperatorReview.decision, hck]
  · simp [OperatorReview.decision, hck]
  · simp [check_permissions_run, hck]

/-- C5 amended witness: the concrete empty-reviewer package. -/
theorem empty_reviewers_maintainers_review_witness :
    cxEmptyReviewers.check_permissions =
      .error (.MaintainersReviewNeeded
        ("Operator " ++ cxEmptyReviewers.operatorName ++
          " does not have any reviewers in ci.yaml")) ∧
    cxEmptyReviewers.decision ≠ .ReviewRequested ∧
    cxEmptyReviewers.decision ≠ .Approved ∧
    check_permissions_run [cxEmptyReviewers] =
      .ok (false, [cxEmptyReviewers.request_review_from_maintainers]) :=
  empty_reviewers_maintainers_review cxEmptyReviewers (by decide) (by decide)

/-- C2 counterexample: for a community package whose reviewer list misses
the submitter, the single dispatch issued is a comment post, not a
reviewer-assignment action — so "exactly one reviewer-assignment dispatch
call" fails (zero such calls are made). -/
theorem community_reviewer_assignment_cx :
    cxCommunityNonMember.is_partner = false ∧
    cxCommunityNonMember.reviewers = ["user1", "user2"] ∧
    (cxCommunityNonMember.submitter ∈ cxCommunityNonMember.reviewers) = False ∧
    cxCommunityNonMember.check_permissions =
      .ok (false, [cxCommunityNonMember.request_review_from_owners]) ∧
    isReviewerAssignmentCommand cxCommunityNonMember.request_review_from_owners =
      false ∧
    (cxCommunityNonMember.request_review_from_owners).take 3 =
      ["gh", "pr", "comment"] := by
  refine ⟨rfl, rfl, ?_, ?_, rfl, rfl⟩
  · simp [cxCommunityNonMember, OperatorReview.reviewers]
  · rfl

/-- C2 amended: for a community-track package with a non-empty reviewer
list missing the submitter, the decision is ReviewRequested (never
Approved) and exactly one dispatch call is made — a comment post on the
pull request whose body names every reviewer identity comma-joined as an
"@"-mention; the reviewer-assignment action is not used on this path. -/
theorem community_nonmember_review_requested (r : OperatorReview)
    (hc : r.is_partner = false) (hne : r.reviewers.isEmpty = false)
    (hmem : r.submitter ∉ r.reviewers) :
    r.check_permissions =
      .ok (false, [["gh", "pr", "comment", r.prUrl, "--body",
        ownersCommentBody r.reviewers]]) ∧
    r.decision = .ReviewRequested ∧
    isReviewerAssignmentCommand (OperatorReview.request_review_from_owners r) =
      false := by
  have hck : r.check_permissions =
      .ok (false, [r.request_review_from_owners]) := by
    simp [OperatorReview.check_permissions, hc,
      OperatorReview.check_permission_for_community, hne, hmem]
  refine ⟨?_, ?_, rfl⟩
  · simpa [OperatorReview.request_review_from_owners] using hck
  · simp [OperatorReview.decision, hck]

/-- C2 amended witness: the concrete community package with reviewers
`["user1", "user2"]` and submitter `"owner"`. -/
theorem community_nonmember_review_requested_witness :
    cxCommunityNonMember.check_permissions =
      .ok (false, [["gh", "pr", "comment", cxCommunityNonMember.prUrl, "--body",
        ownersCommentBody cxCommunityNonMember.reviewers]]) ∧
    cxCommunityNonMember.decision = .ReviewRequested ∧
    isReviewerAssignmentCommand
      (OperatorReview.request_review_from_owners cxCommunityNonMember) = false :=
  community_nonmember_review_requested cxCommunityNonMember
    (by decide) (by decide) (by decide)

/-- Recognizes the partner-track fatal rejection among decision
outcomes. -/
def isNoPermissionOutcome : Except ReviewError (Bool × List Command) → Bool
  | .error (.NoPermissionError _) => true
  | _ => false

/-- C1 counterexample: a package whose decision is Rejected (the
empty-reviewer community rejection) does not abort the run — the package
after it is still folded in and an overall verdict is produced, so
"aborts immediately ... no overall Verdict is produced" fails. -/
theorem rejected_aborts_run_cx :
    (∃ m, cxEmptyReviewers.decision = Decision.Rejected m) ∧
    check_permissions_run [cxEmptyReviewers, cxApprovedCommunity] =
      .ok (false, [cxEmptyReviewers.request_review_from_maintainers]) := by
  refine ⟨⟨"Operator empty-op does not have any reviewers in ci.yaml", ?_⟩, ?_⟩
  · rfl
  · rfl

/-- C1 amended: only the partner-track fatal rejection (the
no-permission signal) aborts the run at its package: whenever no earlier
package yields that signal, the aggregation of any change set containing
such a package stops there with the error itself — later packages cannot
influence the outcome and no verdict is produced.  The community
empty-reviewer rejection is instead caught by the aggregator (see the
counterexample). -/
theorem no_permission_rejection_aborts_run (pre : List OperatorReview)
    (r : OperatorReview) (post : List OperatorReview)
    (hpre : ∀ p ∈ pre, isNoPermissionOutcome p.check_permissions = false)
    (hr : isNoPermissionOutcome r.check_permissions = true) :
    check_permissions_run (pre ++ r :: post) = r.check_permissions := by
  induction pre with
  | nil =>
      simp only [List.nil_append]
      unfold check_permissions_run
      unfold isNoPermissionOutcome at hr
      split at hr
      · rename_i m heq
        rw [heq]
      · exact absurd hr (by simp)
  | cons p rest ih =>
      have hp := hpre p (by simp)
      have hrest : ∀ q ∈ rest, isNoPermissionOutcome q.check_permissions = false :=
        fun q hq => hpre q (by simp [hq])
      have htail := ih hrest
      simp only [List.cons_append]
      unfold check_permissions_run
      unfold isNoPermissionOutcome at hr
      split at hr
      · rename_i m heq
        cases hcp : p.check_permissions with
        | ok v =>
            obtain ⟨b, cs⟩ := v
            rw [htail, heq]
        | error e =>
            cases e with
            | MaintainersReviewNeeded m' => rw [htail, heq]
            | NoPermissionError m' =>
                rw [hcp] at hp
                simp [isNoPermissionOutcome] at hp
      · exact absurd hr (by simp)

/-- C1 amended witness: with an approved package first, a partner package
with no ownership record aborts the run with the no-permission error, for
a concrete later package. -/
theorem no_permission_rejection_aborts_run_witness :
    check_permissions_run [cxApprovedCommunity, cxPartnerNoRecord, cxCommunityNonMember] =
      cxPartnerNoRecord.check_permissions ∧
    cxPartnerNoRecord.check_permissions =
      .error (.NoPermissionError "Project not found for operator partner-op") := by
  refine ⟨?_, rfl⟩
  exact no_permission_rejection_aborts_run [cxApprovedCommunity] cxPartnerNoRecord
    [cxCommunityNonMember] (by decide) (by decide)

/-- The verdict produced by a completed run is the conjunction of the
per-package boolean outcomes: helper induction for the aggregate claim. -/
lemma check_permissions_run_ok_iff (rs : List OperatorReview) :
    ∀ v calls, check_permissions_run rs = .ok (v, calls) →
      (v = true ↔ ∀ r ∈ rs, r.decision = Decision.Approved) := by
  induction rs with
  | nil =>
      intro v calls h
      unfold check_permissions_run at h
      simp at h
      simp [h.1]
  | cons r rest ih =>
      intro v calls h
      unfold check_permissions_run at h
      cases hr : r.check_permissions with
      | ok p =>
          obtain ⟨b, cs⟩ := p
          rw [hr] at h
          cases hrest : check_permissions_run rest with
          | ok q =>
              obtain ⟨v', cs'⟩ := q
              rw [hrest] at h
              simp at h
              obtain ⟨hv, -⟩ := h
              have hdec : r.decision = Decision.Approved ↔ b = true := by
                cases b <;> simp [OperatorReview.decision, hr]
              constructor
              · intro hvt
                subst hv
                simp at hvt
                intro q hq
                simp only [List.mem_cons] at hq
                rcases hq with hq | hq
                · subst hq; exact hdec.mpr hvt.1
                · exact ((ih v' cs' hrest).mp hvt.2) q hq
              · intro hall
                subst hv
                have hb := hdec.mp (hall r (by simp))
                have hv' := (ih v' cs' hrest).mpr (fun q hq => hall q (by simp [hq]))
                simp [hb, hv']
          | error e =>
              rw [hrest] at h
              simp at h
      | error e =>
          cases e with
          | MaintainersReviewNeeded m =>
              rw [hr] at h
              cases hrest : check_permissions_run rest with
              | ok q =>
                  obtain ⟨v', cs'⟩ := q
                  rw [hrest] at h
                  simp at h
                  obtain ⟨hv, -⟩ := h
                  subst hv
                  refine iff_of_false (by simp) ?_
                  intro hall
                  have := hall r (by simp)
                  simp [OperatorReview.decision, hr] at this
              | error e' =>
                  rw [hrest] at h
                  simp at h
          | NoPermissionError m =>
              rw [hr] at h
              simp at h

/-- C6: a run that completes without a fatal error yields verdict true
exactly when every package's decision is Approved; the empty change set
yields verdict true; and within a completed run, any package whose
decision is ReviewRequested forces the overall verdict to false. -/
theorem verdict_iff_all_approved :
    check_permissions_run [] = .ok (true, []) ∧
    ∀ rs v calls, check_permissions_run rs = .ok (v, calls) →
      ((v = true ↔ ∀ r ∈ rs, r.decision = Decision.Approved) ∧
        (∀ r ∈ rs, r.decision = Decision.ReviewRequested → v = false)) := by
  refine ⟨rfl, ?_⟩
  intro rs v calls h
  have hiff := check_permissions_run_ok_iff rs v calls h
  refine ⟨hiff, ?_⟩
  intro r hr hreq
  cases hv : v with
  | false => rfl
  | true =>
      have := (hiff.mp hv) r hr
      rw [hreq] at this
      exact absurd this (by simp)

/-- C6 witness: a completed run over one approved and one
review-requested package has a false verdict that matches the
all-approved characterization. -/
theorem verdict_iff_all_approved_witness :
    check_permissions_run [cxApprovedCommunity, cxCommunityNonMember] =
      .ok (false, [cxCommunityNonMember.request_review_from_owners]) ∧
    (false = true ↔
      ∀ r ∈ [cxApprovedCommunity, cxCommunityNonMember],
        r.decision = Decision.Approved) := by
  refine ⟨rfl, ?_⟩
  exact (verdict_iff_all_approved.2 [cxApprovedCommunity, cxCommunityNonMember]
    false [cxCommunityNonMember.request_review_from_owners] rfl).1

/-- C7: publishing is idempotent — a vendor or repository record already
published is returned unmodified with no mutating call, and an unpublished
one receives exactly one patch whose payload sets `published` to true. -/
theorem publish_idempotent (args : PublishArgs) (vendor patchV : VendorRec)
    (project : Project) (repo patchR : RepoRec) (vend2 : VendorRec)
    (shortDescOf : String → String) (postResp : RepoRec) :
    (vendor.published.getD false = true →
      publish_vendor args vendor patchV = (vendor, [])) ∧
    (vendor.published.getD false = false →
      publish_vendor args vendor patchV =
        (patchV, [PublishCall.patch
          (urljoin args.pyxis_url ("v1/vendors/id/" ++ vendor.id))
          { published := true }])) ∧
    (repo.published.getD false = true →
      publish_repository args project (some repo) patchR vend2 shortDescOf postResp =
        (some repo, [])) ∧
    (repo.published.getD false = false →
      publish_repository args project (some repo) patchR vend2 shortDescOf postResp =
        (some patchR, [PublishCall.patch
          (urljoin args.pyxis_url ("v1/repositories/id/" ++ repo.id))
          { published := true }])) := by
  refine ⟨?_, ?_, ?_, ?_⟩ <;> intro h <;>
    simp [publish_vendor, publish_repository, h]

/-- Example publish CLI arguments. -/
def pubArgsEx : PublishArgs :=
  { pyxis_url := "https://pyxis.example.com/"
    org_id := "org1"
    cert_project_id := "cert1"
    connect_registry := "registry.connect" }

/-- A vendor record already published. -/
def vendorPubEx : VendorRec := { id := "v1", published := some true, label := "acme" }

/-- A vendor record with no published flag (unpublished). -/
def vendorUnpubEx : VendorRec := { id := "v2", published := none, label := "acme" }

/-- The vendor record as returned by the patch call. -/
def vendorPatchedEx : VendorRec := { id := "v2", published := some true, label := "acme" }

/-- A repository record already published. -/
def repoPubEx : RepoRec := { id := "r1", published := some true }

/-- A repository record explicitly unpublished. -/
def repoUnpubEx : RepoRec := { id := "r2", published := some false }

/-- The repository record as returned by the patch call. -/
def repoPatchedEx : RepoRec := { id := "r2", published := some true }

/-- An example certification project whose distribution method is
"connect" (unsupported by `create_repository`). -/
def projectEx : Project :=
  { name := some "Proj"
    org_id := some "org1"
    container_isv_pid := some "isv1"
    container_distribution_method := some "connect"
    container_repository_name := some "repo"
    container_repository_description := some "desc"
    container_release_category := some "Generally Available"
    container_privileged := some false
    container_application_categories := some [] }

/-- C7 witness: the four idempotency cases at concrete records. -/
theorem publish_idempotent_witness :
    publish_vendor pubArgsEx vendorPubEx vendorPatchedEx = (vendorPubEx, []) ∧
    publish_vendor pubArgsEx vendorUnpubEx vendorPatchedEx =
      (vendorPatchedEx, [PublishCall.patch
        (urljoin pubArgsEx.pyxis_url ("v1/vendors/id/" ++ vendorUnpubEx.id))
        { published := true }]) ∧
    publish_repository pubArgsEx projectEx (some repoPubEx) repoPatchedEx
        vendorPubEx id repoPatchedEx = (some repoPubEx, []) ∧
    publish_repository pubArgsEx projectEx (some repoUnpubEx) repoPatchedEx
        vendorPubEx id repoPatchedEx =
      (some repoPatchedEx, [PublishCall.patch
        (urljoin pubArgsEx.pyxis_url ("v1/repositories/id/" ++ repoUnpubEx.id))
        { published := true }]) := by
  refine ⟨?_, ?_, ?_, ?_⟩
  · exact (publish_idempotent pubArgsEx vendorPubEx vendorPatchedEx projectEx
      repoPubEx repoPatchedEx vendorPubEx id repoPatchedEx).1 (by decide)
  · exact (publish_idempotent pubArgsEx vendorUnpubEx vendorPatchedEx projectEx
      repoPubEx repoPatchedEx vendorPubEx id repoPatchedEx).2.1 (by decide)
  · exact (publish_idempotent pubArgsEx vendorPubEx vendorPatchedEx projectEx
      repoPubEx repoPatchedEx vendorPubEx id repoPatchedEx).2.2.1 (by decide)
  · exact (publish_idempotent pubArgsEx vendorPubEx vendorPatchedEx projectEx
      repoUnpubEx repoPatchedEx vendorPubEx id repoPatchedEx).2.2.2 (by decide)

/-- C10: for a project whose container distribution method is neither
"rhcc" nor "marketplace_only", repository creation returns `none` and
issues no remote call at all — a silent no-op. -/
theorem create_repository_unsupported (args : PublishArgs) (project : Project)
    (vendor : VendorRec) (shortDescOf : String → String) (postResp : RepoRec)
    (h1 : project.container_distribution_method ≠ some "rhcc")
    (h2 : project.container_distribution_method ≠ some "marketplace_only") :
    create_repository args project vendor shortDescOf postResp = (none, []) := by
  simp [create_repository, h1, h2]

/-- C10 witness: the project with distribution method "connect". -/
theorem create_repository_unsupported_witness :
    create_repository pubArgsEx projectEx vendorPubEx id repoPatchedEx =
      (none, []) :=
  create_repository_unsupported pubArgsEx projectEx vendorPubEx id repoPatchedEx
    (by decide) (by decide)

/-- C9: the posted ContainerImage payload always carries `certified :=
true`, and the `--certified` CLI argument is never consulted — replacing it
leaves the result unchanged. -/
theorem certified_always_true (args : ImageArgs) (date_now : String)
    (skopeo : SkopeoResult) (podman : List PodmanRec) (hp : podman ≠ []) :
    (∃ url payload,
      create_container_image args date_now skopeo podman = some (url, payload) ∧
      payload.certified = true) ∧
    ∀ c, create_container_image { args with certified := c } date_now skopeo podman =
      create_container_image args date_now skopeo podman := by
  cases podman with
  | nil => exact absurd rfl hp
  | cons p0 rest =>
      refine ⟨⟨_, _, rfl, rfl⟩, ?_⟩
      intro c
      rfl

/-- An example skopeo inspect result. -/
def skopeoEx : SkopeoResult :=
  { DockerVersion := some "20.10.7"
    Layers := some ["sha256:l1"]
    Architecture := some "amd64"
    Env := some ["PATH=/usr/bin"] }

/-- An example podman inspect result. -/
def podmanEx : List PodmanRec := [{ Size := 123456 }]

/-- Example image-creation CLI arguments, with `--certified false` and
`--is-latest true`. -/
def imgArgsEx : ImageArgs :=
  { pyxis_url := "https://pyxis.example.com/"
    isv_pid := "isv1"
    connect_registry := "registry.connect"
    repository := "acme/repo"
    certified := "false"
    bundle_version := "0.0.2"
    docker_image_digest := "sha256:new"
    is_latest := "true" }

/-- C9 witness: at the concrete arguments carrying `--certified false`,
the posted payload still has `certified = true`, and replacing the
argument with "true" changes nothing. -/
theorem certified_always_true_witness :
    (∃ url payload,
      create_container_image imgArgsEx "2024-01-02" skopeoEx podmanEx =
        some (url, payload) ∧ payload.certified = true) ∧
    create_container_image { imgArgsEx with certified := "true" } "2024-01-02"
        skopeoEx podmanEx =
      create_container_image imgArgsEx "2024-01-02" skopeoEx podmanEx := by
  have h := certified_always_true imgArgsEx "2024-01-02" skopeoEx podmanEx (by decide)
  exact ⟨h.1, h.2 "true"⟩

/-- Whether some repository entry of an image carries a "latest" tag. -/
def imageHasLatestTag (img : PImage) : Bool :=
  img.repositories.any (fun r => r.tags.any (fun t => t.name == "latest"))

/-- The image with every "latest" tag entry removed from its
repositories. -/
def strippedOfLatest (img : PImage) : PImage :=
  { img with repositories := (clean_latest_tag img.repositories).1 }

/-- Filtering out the "latest" tags leaves no "latest" tag. -/
lemma tags_filter_no_latest (ts : List TagEntry) :
    (ts.filter (fun t => t.name ≠ "latest")).any (fun t => t.name == "latest") =
      false := by
  induction ts with
  | nil => rfl
  | cons t ts ih =>
      by_cases h : t.name = "latest"
      · simp [List.filter, h, ih]
      · simp [List.filter, h, ih]

/-- The repositories cleaned by `clean_latest_tag` carry no "latest"
tag. -/
lemma clean_latest_tag_no_latest (rs : List RepoImageEntry) :
    (clean_latest_tag rs).1.any (fun r => r.tags.any (fun t => t.name == "latest")) =
      false := by
  induction rs with
  | nil => rfl
  | cons r rest ih => simp [clean_latest_tag, tags_filter_no_latest, ih]

/-- The flag returned by `clean_latest_tag` reports exactly whether a
"latest" tag was present. -/
lemma clean_latest_tag_snd (rs : List RepoImageEntry) :
    (clean_latest_tag rs).2 =
      rs.any (fun r => r.tags.any (fun t => t.name == "latest")) := by
  induction rs with
  | nil => rfl
  | cons r rest ih => simp [clean_latest_tag, ih]

/-- A stripped image carries no "latest" tag. -/
lemma stripped_no_latest (img : PImage) :
    imageHasLatestTag (strippedOfLatest img) = false := by
  simpa [imageHasLatestTag, strippedOfLatest] using
    clean_latest_tag_no_latest img.repositories

/-- The calls issued by `remove_latest_from_previous_image`: one update of
the stripped previous image when the most recent prior image carries a
"latest" tag, none otherwise. -/
lemma remove_latest_spec (pyxis_url isv_pid : String) (db : List PImage) :
    (∀ prev, mostRecentPriorImage db isv_pid = some prev →
      ((imageHasLatestTag prev = true →
        remove_latest_from_previous_image pyxis_url isv_pid db =
          [ImageCall.put (urljoin pyxis_url ("v1/images/id/" ++ prev.id))
            (strippedOfLatest prev)]) ∧
       (imageHasLatestTag prev = false →
        remove_latest_from_previous_image pyxis_url isv_pid db = []))) ∧
    (mostRecentPriorImage db isv_pid = none →
      remove_latest_from_previous_image pyxis_url isv_pid db = []) := by
  constructor
  · intro prev hprev
    unfold imageHasLatestTag
    constructor <;> intro hlat <;>
      simp [remove_latest_from_previous_image, hprev, clean_latest_tag_snd,
        hlat, strippedOfLatest]
  · intro h
    simp [remove_latest_from_previous_image, h]

/-- C8: publishing a new "latest"-flagged image (not already existing)
issues, before the create call, exactly one update call stripping every
"latest" tag from the most-recently-created prior image when that image
carries one, and no update call otherwise. -/
theorem latest_tag_transition (args : ImageArgs) (date_now : String)
    (skopeo : SkopeoResult) (podman : List PodmanRec) (db : List PImage)
    (hl : args.is_latest = "true")
    (hex : check_if_image_already_exists args db = false)
    (hp : podman ≠ []) :
    ∃ url payload,
      create_container_image args date_now skopeo podman = some (url, payload) ∧
      (∀ prev, mostRecentPriorImage db args.isv_pid = some prev →
        imageHasLatestTag prev = true →
          create_image_main args date_now skopeo podman db =
            some [ImageCall.put
                (urljoin args.pyxis_url ("v1/images/id/" ++ prev.id))
                (strippedOfLatest prev),
              ImageCall.post url payload] ∧
          imageHasLatestTag (strippedOfLatest prev) = false) ∧
      (∀ prev, mostRecentPriorImage db args.isv_pid = some prev →
        imageHasLatestTag prev = false →
          create_image_main args date_now skopeo podman db =
            some [ImageCall.post url payload]) ∧
      (mostRecentPriorImage db args.isv_pid = none →
        create_image_main args date_now skopeo podman db =
          some [ImageCall.post url payload]) := by
  cases podman with
  | nil => exact absurd rfl hp
  | cons p0 rest =>
      refine ⟨_, _, rfl, ?_, ?_, ?_⟩
      · intro prev hprev hlat
        have hrem := ((remove_latest_spec args.pyxis_url args.isv_pid db).1
          prev hprev).1 hlat
        refine ⟨?_, stripped_no_latest prev⟩
        simp [create_image_main, hex, hl, hrem, create_container_image]
      · intro prev hprev hlat
        have hrem := ((remove_latest_spec args.pyxis_url args.isv_pid db).1
          prev hprev).2 hlat
        simp [create_image_main, hex, hl, hrem, create_container_image]
      · intro hnone
        have hrem := (remove_latest_spec args.pyxis_url args.isv_pid db).2 hnone
        simp [create_image_main, hex, hl, hrem, create_container_image]

/-- An older prior image without a "latest" tag. -/
def olderImageEx : PImage :=
  { id := "img0"
    isv_pid := "isv1"
    docker_image_digest := "sha256:older"
    deleted := false
    creation_date := 2
    repositories :=
      [{ published := true
         registry := "registry.connect"
         repository := "acme/repo"
         push_date := "2022-01-01"
         tags := [{ added_date := "2022-01-01", name := "0.0.0" }] }] }

/-- The most recent prior image, carrying a "latest" tag. -/
def prevImageEx : PImage :=
  { id := "img1"
    isv_pid := "isv1"
    docker_image_digest := "sha256:old"
    deleted := false
    creation_date := 5
    repositories :=
      [{ published := true
         registry := "registry.connect"
         repository := "acme/repo"
         push_date := "2023-01-01"
         tags := [{ added_date := "2023-01-01", name := "0.0.1" },
           { added_date := "2023-01-01", name := "latest" }] }] }

/-- The remote image catalog for the witness run. -/
def imageDbEx : List PImage := [olderImageEx, prevImageEx]

/-- C8 witness: the concrete publish run strips "latest" from the prior
image in a single update call placed before the create call. -/
theorem latest_tag_transition_witness :
    ∃ url payload,
      create_image_main imgArgsEx "2024-01-02" skopeoEx podmanEx imageDbEx =
        some [ImageCall.put
            (urljoin imgArgsEx.pyxis_url ("v1/images/id/" ++ prevImageEx.id))
            (strippedOfLatest prevImageEx),
          ImageCall.post url payload] ∧
      imageHasLatestTag (strippedOfLatest prevImageEx) = false := by
  obtain ⟨url, payload, hc, h1, h2, h3⟩ :=
    latest_tag_transition imgArgsEx "2024-01-02" skopeoEx podmanEx imageDbEx
      rfl (by decide) (by decide)
  obtain ⟨hmain, hstr⟩ := h1 prevImageEx (by decide) (by decide)
  exact ⟨url, payload, hmain, hstr⟩

end OperatorPipelines
